import Mathlib

/-!
Shallow embedding of `tensorflow/compiler/xla/service/hlo_execution_profile.cc`
(class `xla::HloExecutionProfile`) and proofs about it.

Modelling conventions:
* An `HloInstruction*` is modelled as a value of the structure `HloInstruction`;
  pointer identity is equality of the structure value (a pointer determines all
  of the fields read through it: `parent()`, `ToString()`, `ToString(compact)`,
  `ToCategory()`).  An `HloComputation*` is identified by its `id` field, and
  `HloInstruction.parent` stores the id of the owning computation, so the C++
  pointer comparison `item.first->parent() == &computation` becomes
  `it.1.parent == computation.id`.
* `std::unordered_map<const HloInstruction*, uint64>` is an association list
  with unique keys; `operator[]` puts the fresh binding in front and drops the
  old binding of the same key.  `std::set<HloComputation*>` is a duplicate-free
  list of computation ids.
* External collaborators (the `HloCostAnalysis` visitor run from the root
  instruction, `total_cycles_executed`, the human-readable number formatters,
  `Printf` row formatting and `MetricTableReport`) are parameters, bundled in
  `Env` / `DeviceDescription`, exactly as the spec classifies them as external.
* C++ `double` arithmetic is modelled over `ℚ`; the implicit `double → int64`
  conversion at the `HumanReadableNumBytes` call site is `doubleToInt64`
  (truncation; it is only reached on nonnegative arguments).  `uint64` cycle
  counts are `Nat`, and the implicit `uint64 → int64` conversion when an item
  is passed to `append_item` is `toInt64`.
* `std::sort` with comparator `lhs.second > rhs.second` leaves the order of
  ties unspecified; it is modelled by `List.mergeSort` with the total
  comparator `rhs.second ≤ lhs.second`, a legitimate refinement (any correct
  sort for this comparator produces a non-increasing, permuted list).
* The `CHECK_GE(clock_rate_ghz, 1e-9)` abort is modelled by `ToString`
  returning `none`; a normally returned string `s` is `some s`.
-/

namespace XlaProfile

/-- Model of `const HloInstruction*`: the node identity together with
everything the profiler reads through it. -/
structure HloInstruction where
  id : Nat
  parent : Nat
  text : String
  shortText : String
  category : String
deriving DecidableEq, Repr

/-- Model of `const HloComputation&`: identity plus `name()`. -/
structure HloComputation where
  id : Nat
  name : String
deriving DecidableEq, Repr

/-- Model of `DeviceDescription`: only `clock_rate_ghz()` is read. -/
structure DeviceDescription where
  clock_rate_ghz : ℚ
deriving DecidableEq, Repr

/-- Result of running the external `HloCostAnalysis` visitor over the root
instruction: the status plus the per-node `flop_count` / `bytes_accessed`
queries (both `int64`, negative meaning unknown). -/
structure CostAnalysisResult where
  ok : Bool
  flop_count : HloInstruction → Int
  bytes_accessed : HloInstruction → Int

/-- Model of `MetricTableReport::Entry`. -/
structure Entry where
  text : String
  short_text : String
  category_text : String
  metric : ℚ
deriving DecidableEq, Repr

/-- The external collaborators of `HloExecutionProfile::ToString`, as opaque
parameters: the cost-analysis pass (already specialised to the shape-size
function), the externally maintained `total_cycles_executed` map, the
formatting routines, and `MetricTableReport::MakeReport`. -/
structure Env where
  costAnalysis : HloComputation → CostAnalysisResult
  total_cycles_executed : HloComputation → Int
  humanReadableNumBytes : Int → String
  humanReadableNumFlops : Int → ℚ → String
  humanReadableElapsedTime : ℚ → String
  printfRow : Int → ℚ → ℚ → String → String → String → String → String
  makeReport : List Entry → ℚ → String

/-- The profile state: `hlo_to_cycles_taken_` (unique-key association list)
and `profiled_computations_` (duplicate-free list of computation ids). -/
structure HloExecutionProfile where
  hlo_to_cycles_taken : List (HloInstruction × Nat)
  profiled_computations : List Nat
deriving DecidableEq, Repr

/-- The freshly constructed profile: both containers empty. -/
def emptyProfile : HloExecutionProfile := ⟨[], []⟩

/-- Model of `std::set::insert` on the touched-computation set. -/
def insertComp (s : List Nat) (c : Nat) : List Nat :=
  if c ∈ s then s else c :: s

/-- Model of `HloExecutionProfile::AddProfileResult`:
`hlo_to_cycles_taken_[hlo] = cycles_taken; profiled_computations_.insert(hlo->parent());`. -/
def HloExecutionProfile.AddProfileResult (p : HloExecutionProfile)
    (hlo : HloInstruction) (cycles_taken : Nat) : HloExecutionProfile :=
  { hlo_to_cycles_taken :=
      (hlo, cycles_taken) :: p.hlo_to_cycles_taken.filter (fun it => it.1 != hlo),
    profiled_computations := insertComp p.profiled_computations hlo.parent }

/-- Model of `HloExecutionProfile::GetProfileResult`: look the node up in the
map, returning `0` when it is absent. -/
def HloExecutionProfile.GetProfileResult (p : HloExecutionProfile)
    (hlo : HloInstruction) : Nat :=
  match p.hlo_to_cycles_taken.find? (fun it => it.1 == hlo) with
  | none => 0
  | some it => it.2

/-- Replay of a call sequence `AddProfileResult(op.1, op.2)` starting from the
freshly constructed profile. -/
def runAdds (ops : List (HloInstruction × Nat)) : HloExecutionProfile :=
  ops.foldl (fun q op => q.AddProfileResult op.1 op.2) emptyProfile

/-- Conversion of a `uint64` value to `int64`, as happens implicitly when
`item.second` is passed to `append_item` (two's-complement wrap-around). -/
def toInt64 (n : Nat) : Int :=
  if n % 2 ^ 64 < 2 ^ 63 then ((n % 2 ^ 64 : Nat) : Int)
  else ((n % 2 ^ 64 : Nat) : Int) - 2 ^ 64

/-- Conversion of a C++ `double` (modelled as `ℚ`) to `int64` by truncation
toward zero; in this file it is only applied to nonnegative values. -/
def doubleToInt64 (q : ℚ) : Int := q.num / (q.den : Int)

/-- The filter loop of `ToString`: keep the observations whose node's parent
is (pointer-)identical to the queried computation. -/
def filteredItems (p : HloExecutionProfile) (computation : HloComputation) :
    List (HloInstruction × Nat) :=
  p.hlo_to_cycles_taken.filter (fun it => it.1.parent == computation.id)

/-- Total comparator refining the strict `custom_less` comparator
`lhs.second > rhs.second` of the `std::sort` call. -/
def custom_le (lhs rhs : HloInstruction × Nat) : Bool := rhs.2 ≤ lhs.2

/-- The filtered observations sorted by cycle count descending
(`std::sort(items.begin(), items.end(), custom_less)`). -/
def sortedItems (p : HloExecutionProfile) (computation : HloComputation) :
    List (HloInstruction × Nat) :=
  (filteredItems p computation).mergeSort custom_le

/-- The `cycles_to_microseconds` lambda: `cycles / clock_rate_ghz / 1000.0`. -/
def cycles_to_microseconds (clock_rate_ghz : ℚ) (cycles : ℚ) : ℚ :=
  cycles / clock_rate_ghz / 1000

/-- One formatted report line, kept structured: the arguments given to the
`append_item` lambda together with every derived value it computes. -/
structure Row where
  cycles : Int
  flops : Int
  bytes_accessed : Int
  name : String
  bytes_per_sec : String
  bytes_per_cycle : String
  cycles_percent : ℚ
  usec : ℚ
  flops_str : String

/-- Model of the `append_item` lambda of `ToString`. -/
def append_item (env : Env) (clock_rate_ghz : ℚ) (total_cycles : Int)
    (cycles flops bytes_accessed : Int) (name : String) : Row :=
  let nsecs : ℚ := (cycles : ℚ) / clock_rate_ghz
  { cycles := cycles
    flops := flops
    bytes_accessed := bytes_accessed
    name := name
    bytes_per_sec :=
      if cycles ≤ 0 ∨ bytes_accessed < 0 then "<unknown>"
      else env.humanReadableNumBytes
        (doubleToInt64 ((bytes_accessed : ℚ) / (nsecs / 1000000000)))
    bytes_per_cycle :=
      if cycles ≤ 0 ∨ bytes_accessed < 0 then "<unknown>"
      else env.humanReadableNumBytes (bytes_accessed / cycles)
    cycles_percent :=
      if 0 < total_cycles then (cycles : ℚ) / (total_cycles : ℚ) * 100 else 0
    usec := cycles_to_microseconds clock_rate_ghz (cycles : ℚ)
    flops_str :=
      if flops ≤ 0 then "<none>" else env.humanReadableNumFlops flops nsecs }

/-- The synthetic first row: `append_item(total_cycles, -1, -1, "[total]")`. -/
def totalRow (env : Env) (clock_rate_ghz : ℚ) (total_cycles : Int) : Row :=
  append_item env clock_rate_ghz total_cycles total_cycles (-1) (-1) "[total]"

/-- The row of one real observation: flop count and bytes accessed come from
the cost analysis, the label is the node's full text.  (The `hlo == nullptr`
fallback in the source is unreachable here: map keys are valid references.) -/
def mkRow (env : Env) (clock_rate_ghz : ℚ) (total_cycles : Int)
    (costs : CostAnalysisResult) (item : HloInstruction × Nat) : Row :=
  append_item env clock_rate_ghz total_cycles (toInt64 item.2)
    (costs.flop_count item.1) (costs.bytes_accessed item.1) item.1.text

/-- All rows of the flat report in emission order: the `[total]` row first,
then one row per sorted observation. -/
def reportRows (p : HloExecutionProfile) (env : Env)
    (computation : HloComputation) (device_description : DeviceDescription) :
    List Row :=
  totalRow env device_description.clock_rate_ghz
      (env.total_cycles_executed computation) ::
    (sortedItems p computation).map
      (mkRow env device_description.clock_rate_ghz
        (env.total_cycles_executed computation) (env.costAnalysis computation))

/-- What `ToString` appends after the flat report: either the literal
zero-total-cycles marker or the categorized `MetricTableReport`. -/
inductive ReportTail where
  | zeroMarker : ReportTail
  | categorizedTable (entries : List Entry) (total_usec : ℚ) : ReportTail
deriving DecidableEq

/-- The `MetricTableReport::Entry` built from one observation: full text,
compact text, category, and the observation's microseconds as metric. -/
def mkEntry (clock_rate_ghz : ℚ) (item : HloInstruction × Nat) : Entry :=
  { text := item.1.text
    short_text := item.1.shortText
    category_text := item.1.category
    metric := cycles_to_microseconds clock_rate_ghz ((item.2 : Nat) : ℚ) }

/-- The tail of the report: the zero-cycles marker when `total_cycles <= 0`,
otherwise the categorized table over the sorted items, finalized against the
total's microseconds. -/
def reportTail (p : HloExecutionProfile) (env : Env) (clock_rate_ghz : ℚ)
    (computation : HloComputation) : ReportTail :=
  let total_cycles := env.total_cycles_executed computation
  if total_cycles ≤ 0 then ReportTail.zeroMarker
  else ReportTail.categorizedTable
    ((sortedItems p computation).map (mkEntry clock_rate_ghz))
    (cycles_to_microseconds clock_rate_ghz (total_cycles : ℚ))

/-- The header line: `"HLO execution profile for %s: (%s @ f_nom)\n\t"`. -/
def reportHeader (env : Env) (clock_rate_ghz : ℚ)
    (computation : HloComputation) (total_cycles : Int) : String :=
  "HLO execution profile for " ++ computation.name ++ ": (" ++
    env.humanReadableElapsedTime ((total_cycles : ℚ) / clock_rate_ghz / 1000000000) ++
    " @ f_nom)\n\t"

/-- The `Printf` rendering of one row. -/
def rowText (env : Env) (r : Row) : String :=
  env.printfRow r.cycles r.cycles_percent r.usec r.flops_str r.bytes_per_sec
    r.bytes_per_cycle r.name

/-- Rendering of the row list: the first (total) row follows the header
directly, every further row is preceded by `"\n\t"`. -/
def renderRows (env : Env) (rows : List Row) : String :=
  match rows with
  | [] => ""
  | r :: rest =>
    rowText env r ++ String.join (rest.map (fun r2 => "\n\t" ++ rowText env r2))

/-- Rendering of the report tail. -/
def renderTail (env : Env) : ReportTail → String
  | ReportTail.zeroMarker => "****** 0 total cycles ******\n"
  | ReportTail.categorizedTable entries total_usec => env.makeReport entries total_usec

/-- Model of `HloExecutionProfile::ToString`.  Returns `some ""` when the
cost-analysis status is not ok, `none` when `CHECK_GE(clock_rate_ghz, 1e-9)`
would abort, and otherwise the concatenated report text. -/
def HloExecutionProfile.ToString (p : HloExecutionProfile) (env : Env)
    (computation : HloComputation) (device_description : DeviceDescription) :
    Option String :=
  if (env.costAnalysis computation).ok then
    if device_description.clock_rate_ghz < 1 / 1000000000 then none
    else
      some (reportHeader env device_description.clock_rate_ghz computation
          (env.total_cycles_executed computation) ++
        renderRows env (reportRows p env computation device_description) ++
        renderTail env
          (reportTail p env device_description.clock_rate_ghz computation))
  else some ""

/-- The last value written for `hlo` in a call sequence, if any. -/
def lastWrite (ops : List (HloInstruction × Nat)) (hlo : HloInstruction) :
    Option Nat :=
  match ops with
  | [] => none
  | op :: rest =>
    match lastWrite rest hlo with
    | some v => some v
    | none => if op.1 = hlo then some op.2 else none

/-! Concrete material used by the witness theorems. -/

/-- A sample instruction in computation `10`. -/
def instA : HloInstruction := ⟨1, 10, "addA", "a", "add"⟩

/-- A second sample instruction in computation `10`. -/
def instB : HloInstruction := ⟨2, 10, "mulB", "b", "mul"⟩

/-- A sample instruction in the other computation `11`. -/
def instC : HloInstruction := ⟨3, 11, "convC", "c", "conv"⟩

/-- The queried sample computation. -/
def compS : HloComputation := ⟨10, "S"⟩

/-- A sample environment whose cost analysis succeeds. -/
def envOk : Env :=
  { costAnalysis := fun _ => ⟨true, fun _ => 2, fun _ => 8⟩
    total_cycles_executed := fun _ => 500
    humanReadableNumBytes := fun _ => "<bytes>"
    humanReadableNumFlops := fun _ _ => "<flops>"
    humanReadableElapsedTime := fun _ => "<time>"
    printfRow := fun _ _ _ _ _ _ n => "row:" ++ n
    makeReport := fun _ _ => "<table>" }

/-- A sample environment whose cost analysis reports failure. -/
def envBad : Env :=
  { envOk with costAnalysis := fun _ => ⟨false, fun _ => 0, fun _ => 0⟩ }

/-- A sample environment reporting zero total cycles. -/
def envZero : Env := { envOk with total_cycles_executed := fun _ => 0 }

/-- A sample device description with a 1 GHz clock. -/
def deviceW : DeviceDescription := ⟨1⟩

/-! Helper lemmas. -/

theorem find?_filter_of_imp {α : Type} (l : List α) (pr q : α → Bool)
    (h : ∀ x, pr x = true → q x = true) :
    (l.filter q).find? pr = l.find? pr := by
  induction l with
  | nil => rfl
  | cons a l ih =>
    by_cases hq : q a = true
    · rw [List.filter_cons_of_pos hq]
      by_cases hp : pr a = true
      · rw [List.find?_cons_of_pos _ hp, List.find?_cons_of_pos _ hp]
      · rw [List.find?_cons_of_neg _ (by simp [hp]),
          List.find?_cons_of_neg _ (by simp [hp]), ih]
    · rw [List.filter_cons_of_neg (by simp [hq]), ih,
        List.find?_cons_of_neg]
      by_cases hp : pr a = true
      · exact absurd (h a hp) hq
      · simp [hp]

theorem GetProfileResult_AddProfileResult (p : HloExecutionProfile)
    (a b : HloInstruction) (c : Nat) :
    (p.AddProfileResult a c).GetProfileResult b =
      if b = a then c else p.GetProfileResult b := by
  unfold HloExecutionProfile.AddProfileResult HloExecutionProfile.GetProfileResult
  dsimp only
  by_cases hba : b = a
  · subst hba
    rw [List.find?_cons_of_pos _ (by simp), if_pos rfl]
  · rw [if_neg hba,
      List.find?_cons_of_neg _
        (by simp only [beq_iff_eq]; exact fun h => hba h.symm),
      find?_filter_of_imp]
    intro x hx
    simp only [beq_iff_eq] at hx
    simp [hx, hba]

theorem lastWrite_eq_none (ops : List (HloInstruction × Nat))
    (hlo : HloInstruction) (h : ∀ op ∈ ops, op.1 ≠ hlo) :
    lastWrite ops hlo = none := by
  induction ops with
  | nil => rfl
  | cons op rest ih =>
    unfold lastWrite
    rw [ih (fun o ho => h o (List.mem_cons_of_mem _ ho))]
    simp [h op (List.mem_cons_self _ _)]

theorem foldl_Add_GetProfileResult (ops : List (HloInstruction × Nat))
    (p : HloExecutionProfile) (hlo : HloInstruction) :
    (ops.foldl (fun q op => q.AddProfileResult op.1 op.2) p).GetProfileResult hlo =
      (lastWrite ops hlo).getD (p.GetProfileResult hlo) := by
  induction ops generalizing p with
  | nil => rfl
  | cons op rest ih =>
    rw [List.foldl_cons, ih, GetProfileResult_AddProfileResult]
    cases h : lastWrite rest hlo with
    | some v => simp [lastWrite, h]
    | none =>
      simp only [lastWrite, h]
      by_cases hop : op.1 = hlo
      · rw [if_pos hop, if_pos hop.symm]
        rfl
      · rw [if_neg hop, if_neg (fun hh : hlo = op.1 => hop hh.symm)]

theorem mem_insertComp (s : List Nat) (c x : Nat) (h : x ∈ s) :
    x ∈ insertComp s c := by
  unfold insertComp
  split
  · exact h
  · exact List.mem_cons_of_mem _ h

theorem mem_insertComp_self (s : List Nat) (c : Nat) : c ∈ insertComp s c := by
  unfold insertComp
  split
  · assumption
  · exact List.mem_cons_self _ _

theorem touched_preserved_foldl (ops : List (HloInstruction × Nat))
    (p : HloExecutionProfile) (x : Nat) (h : x ∈ p.profiled_computations) :
    x ∈ (ops.foldl (fun q op => q.AddProfileResult op.1 op.2) p).profiled_computations := by
  induction ops generalizing p with
  | nil => exact h
  | cons op rest ih => exact ih _ (mem_insertComp _ _ _ h)

/-! Claim theorems. -/

/-- Claim C7: for every node identity and any prior profile state (hence any
sequence of earlier `AddProfileResult` calls for that identity),
`GetProfileResult` after `AddProfileResult(hlo, cycles)` returns `cycles`:
repeated calls overwrite rather than accumulate. -/
theorem C7_last_write_wins (p : HloExecutionProfile) (hlo : HloInstruction)
    (cycles : Nat) :
    (p.AddProfileResult hlo cycles).GetProfileResult hlo = cycles := by
  rw [GetProfileResult_AddProfileResult, if_pos rfl]

/-- Claim C8: over any call sequence replayed from the fresh profile,
`GetProfileResult` returns the last written value for the node and defaults to
`0`; in particular it returns `0` for a node never passed to
`AddProfileResult`, and it never fails (it is a total function). -/
theorem C8_get_default_zero (ops : List (HloInstruction × Nat))
    (hlo : HloInstruction) :
    (runAdds ops).GetProfileResult hlo = (lastWrite ops hlo).getD 0 ∧
    ((∀ op ∈ ops, op.1 ≠ hlo) → (runAdds ops).GetProfileResult hlo = 0) := by
  have hmain : (runAdds ops).GetProfileResult hlo = (lastWrite ops hlo).getD 0 :=
    foldl_Add_GetProfileResult ops emptyProfile hlo
  refine ⟨hmain, fun h => ?_⟩
  rw [hmain, lastWrite_eq_none ops hlo h]
  rfl

/-- Claim C8 witness: a node never added reads back as `0`. -/
theorem C8_witness :
    (runAdds [(instA, 100)]).GetProfileResult instB = 0 :=
  (C8_get_default_zero [(instA, 100)] instB).2 (by decide)

/-- Claim C9: after `AddProfileResult(hlo, cycles)` the parent computation of
`hlo` is in the touched-computation set, and it stays there under every
subsequent `AddProfileResult` sequence (the query and report methods are
`const` and do not produce a new state in this embedding). -/
theorem C9_touched_set (p : HloExecutionProfile) (hlo : HloInstruction)
    (cycles : Nat) (ops : List (HloInstruction × Nat)) :
    hlo.parent ∈ (p.AddProfileResult hlo cycles).profiled_computations ∧
    hlo.parent ∈ (ops.foldl (fun q op => q.AddProfileResult op.1 op.2)
        (p.AddProfileResult hlo cycles)).profiled_computations := by
  have h1 : hlo.parent ∈ (p.AddProfileResult hlo cycles).profiled_computations :=
    mem_insertComp_self _ _
  exact ⟨h1, touched_preserved_foldl _ _ _ h1⟩

/-- Claim C10: `AddProfileResult(a, c)` leaves `GetProfileResult(b)` unchanged
for every node `b` whose identity differs from `a`; the read-only nature of
`GetProfileResult` and `ToString` themselves is captured by the embedding,
where both are functions of the state that return no new state. -/
theorem C10_frame (p : HloExecutionProfile) (a b : HloInstruction) (c : Nat)
    (hne : b ≠ a) :
    (p.AddProfileResult a c).GetProfileResult b = p.GetProfileResult b := by
  rw [GetProfileResult_AddProfileResult, if_neg hne]

/-- Claim C10 witness: adding `instA` does not disturb `instB`'s entry. -/
theorem C10_witness :
    ((runAdds [(instB, 7)]).AddProfileResult instA 5).GetProfileResult instB =
      (runAdds [(instB, 7)]).GetProfileResult instB :=
  C10_frame (runAdds [(instB, 7)]) instA instB 5 (by decide)

theorem sortedItems_sorted (p : HloExecutionProfile)
    (computation : HloComputation) :
    (sortedItems p computation).Pairwise (fun lhs rhs => rhs.2 ≤ lhs.2) := by
  have htrans : ∀ a b c : HloInstruction × Nat,
      custom_le a b = true → custom_le b c = true → custom_le a c = true := by
    intro a b c hab hbc
    simp only [custom_le, decide_eq_true_eq] at *
    omega
  have htotal : ∀ a b : HloInstruction × Nat,
      (custom_le a b || custom_le b a) = true := by
    intro a b
    simp only [custom_le, Bool.or_eq_true, decide_eq_true_eq]
    omega
  have h := List.sorted_mergeSort htrans htotal (filteredItems p computation)
  exact h.imp (fun hab => by simpa [custom_le] using hab)

theorem append_item_bytes_per_sec (env : Env) (clock_rate_ghz : ℚ)
    (total_cycles cycles flops bytes_accessed : Int) (name : String) :
    (append_item env clock_rate_ghz total_cycles cycles flops bytes_accessed
        name).bytes_per_sec =
      if cycles ≤ 0 ∨ bytes_accessed < 0 then "<unknown>"
      else env.humanReadableNumBytes (doubleToInt64
        ((bytes_accessed : ℚ) / (((cycles : ℚ) / clock_rate_ghz) / 1000000000))) :=
  rfl

theorem append_item_bytes_per_cycle (env : Env) (clock_rate_ghz : ℚ)
    (total_cycles cycles flops bytes_accessed : Int) (name : String) :
    (append_item env clock_rate_ghz total_cycles cycles flops bytes_accessed
        name).bytes_per_cycle =
      if cycles ≤ 0 ∨ bytes_accessed < 0 then "<unknown>"
      else env.humanReadableNumBytes (bytes_accessed / cycles) :=
  rfl

/-- Claim C1: the flat report has exactly one synthetic total row (in front)
plus exactly one row per stored observation whose node's parent is identical
to the queried computation; observations of other computations contribute no
row (the node rows are a permutation of the identity-filtered store, mapped
to rows). -/
theorem C1_one_row_per_observation (p : HloExecutionProfile) (env : Env)
    (computation : HloComputation) (device_description : DeviceDescription) :
    ∃ nodeRows : List Row,
      reportRows p env computation device_description =
        totalRow env device_description.clock_rate_ghz
          (env.total_cycles_executed computation) :: nodeRows ∧
      nodeRows.Perm
        ((p.hlo_to_cycles_taken.filter
            (fun it => it.1.parent == computation.id)).map
          (mkRow env device_description.clock_rate_ghz
            (env.total_cycles_executed computation)
            (env.costAnalysis computation))) := by
  refine ⟨_, rfl, ?_⟩
  exact (List.mergeSort_perm _ _).map _

/-- Claim C2: the per-node rows (all rows except the leading total row) are
emitted in non-increasing order of their stored cycle count; nothing is
claimed about the relative order of ties. -/
theorem C2_rows_sorted_descending (p : HloExecutionProfile) (env : Env)
    (computation : HloComputation) (device_description : DeviceDescription) :
    (sortedItems p computation).Pairwise (fun lhs rhs => rhs.2 ≤ lhs.2) ∧
    (reportRows p env computation device_description).tail =
      (sortedItems p computation).map
        (mkRow env device_description.clock_rate_ghz
          (env.total_cycles_executed computation)
          (env.costAnalysis computation)) :=
  ⟨sortedItems_sorted p computation, rfl⟩

/-- Claim C3: when the cost-analysis pass over the computation's root reports
failure, `ToString` returns the empty string whatever the store holds; no
partial report is produced. -/
theorem C3_analysis_failure_empty (p : HloExecutionProfile) (env : Env)
    (computation : HloComputation) (device_description : DeviceDescription)
    (h : (env.costAnalysis computation).ok = false) :
    p.ToString env computation device_description = some "" := by
  unfold HloExecutionProfile.ToString
  rw [h]
  rfl

/-- Claim C3 witness: a populated store still reports the empty string under
a failing cost analysis. -/
theorem C3_witness :
    (runAdds [(instA, 100), (instB, 300)]).ToString envBad compS deviceW =
      some "" :=
  C3_analysis_failure_empty (runAdds [(instA, 100), (instB, 300)]) envBad
    compS deviceW rfl

/-- Claim C4: the first emitted row is the synthetic total row, built by
passing the externally supplied `total_cycles` with the `-1` unknown sentinel
for both the flop count and the bytes accessed, so the row renders the
none/unknown sentinels instead of a computed FLOP rate or bandwidth. -/
theorem C4_first_row_total (p : HloExecutionProfile) (env : Env)
    (computation : HloComputation) (device_description : DeviceDescription) :
    (reportRows p env computation device_description).head? =
      some (totalRow env device_description.clock_rate_ghz
        (env.total_cycles_executed computation)) ∧
    ∀ (clock_rate_ghz : ℚ) (total_cycles : Int),
      (totalRow env clock_rate_ghz total_cycles).cycles = total_cycles ∧
      (totalRow env clock_rate_ghz total_cycles).name = "[total]" ∧
      (totalRow env clock_rate_ghz total_cycles).flops = -1 ∧
      (totalRow env clock_rate_ghz total_cycles).bytes_accessed = -1 ∧
      (totalRow env clock_rate_ghz total_cycles).flops_str = "<none>" ∧
      (totalRow env clock_rate_ghz total_cycles).bytes_per_sec = "<unknown>" ∧
      (totalRow env clock_rate_ghz total_cycles).bytes_per_cycle = "<unknown>" := by
  refine ⟨rfl, fun clock_rate_ghz total_cycles => ?_⟩
  refine ⟨rfl, rfl, rfl, rfl, ?_, ?_, ?_⟩ <;>
    norm_num [totalRow, append_item]

/-- Claim C5: a row's bandwidth fields are the unknown sentinel exactly when
`cycles <= 0` or `bytes_accessed < 0` (assuming the external byte formatter
never emits the sentinel text itself); otherwise they are the formatted
`bytes_accessed / (nsecs / 1e9)` and `bytes_accessed / cycles`; in particular
`bytes_accessed = -1` forces both sentinels for any cycle count. -/
theorem C5_bandwidth_sentinels (env : Env) (clock_rate_ghz : ℚ)
    (total_cycles cycles flops bytes_accessed : Int) (name : String)
    (hfmt : ∀ n : Int, env.humanReadableNumBytes n ≠ "<unknown>") :
    (((append_item env clock_rate_ghz total_cycles cycles flops bytes_accessed
          name).bytes_per_sec = "<unknown>" ∧
      (append_item env clock_rate_ghz total_cycles cycles flops bytes_accessed
          name).bytes_per_cycle = "<unknown>") ↔
      (cycles ≤ 0 ∨ bytes_accessed < 0)) ∧
    (¬(cycles ≤ 0 ∨ bytes_accessed < 0) →
      (append_item env clock_rate_ghz total_cycles cycles flops bytes_accessed
          name).bytes_per_sec =
        env.humanReadableNumBytes (doubleToInt64
          ((bytes_accessed : ℚ) / (((cycles : ℚ) / clock_rate_ghz) / 1000000000))) ∧
      (append_item env clock_rate_ghz total_cycles cycles flops bytes_accessed
          name).bytes_per_cycle =
        env.humanReadableNumBytes (bytes_accessed / cycles)) ∧
    ((append_item env clock_rate_ghz total_cycles cycles flops (-1)
        name).bytes_per_sec = "<unknown>" ∧
     (append_item env clock_rate_ghz total_cycles cycles flops (-1)
        name).bytes_per_cycle = "<unknown>") := by
  refine ⟨?_, ?_, ?_⟩
  · rw [append_item_bytes_per_sec, append_item_bytes_per_cycle]
    by_cases hg : cycles ≤ 0 ∨ bytes_accessed < 0
    · simp [hg]
    · simp [hg, hfmt]
  · intro hn
    rw [append_item_bytes_per_sec, append_item_bytes_per_cycle,
      if_neg hn, if_neg hn]
    exact ⟨rfl, rfl⟩
  · rw [append_item_bytes_per_sec, append_item_bytes_per_cycle,
      if_pos (Or.inr (by norm_num)), if_pos (Or.inr (by norm_num))]
    exact ⟨rfl, rfl⟩

/-- Claim C5 witness: the sentinel characterisation evaluated at a concrete
row with `cycles = 300`, `bytes_accessed = 8`, under a formatter that never
emits the sentinel. -/
theorem C5_witness :
    (((append_item envOk 1 500 300 2 8 "x").bytes_per_sec = "<unknown>" ∧
      (append_item envOk 1 500 300 2 8 "x").bytes_per_cycle = "<unknown>") ↔
      ((300 : Int) ≤ 0 ∨ (8 : Int) < 0)) ∧
    (¬((300 : Int) ≤ 0 ∨ (8 : Int) < 0) →
      (append_item envOk 1 500 300 2 8 "x").bytes_per_sec =
        envOk.humanReadableNumBytes (doubleToInt64
          (((8 : Int) : ℚ) / ((((300 : Int) : ℚ) / 1) / 1000000000))) ∧
      (append_item envOk 1 500 300 2 8 "x").bytes_per_cycle =
        envOk.humanReadableNumBytes ((8 : Int) / (300 : Int))) ∧
    ((append_item envOk 1 500 300 2 (-1) "x").bytes_per_sec = "<unknown>" ∧
     (append_item envOk 1 500 300 2 (-1) "x").bytes_per_cycle = "<unknown>") :=
  C5_bandwidth_sentinels envOk 1 500 300 2 8 "x"
    (fun _ => show ("<bytes>" : String) ≠ "<unknown>" by decide)

/-- Claim C6: when the reported total cycles is nonpositive, the report ends
with the literal zero-total-cycles marker and carries no categorized table;
otherwise the tail is the categorized table with one entry per filtered
observation, keyed by full text, compact text and category, carrying that
node's microseconds, finalized against the total's microseconds. -/
theorem C6_tail_zero_or_table (p : HloExecutionProfile) (env : Env)
    (computation : HloComputation) (device_description : DeviceDescription) :
    (env.total_cycles_executed computation ≤ 0 →
      reportTail p env device_description.clock_rate_ghz computation =
        ReportTail.zeroMarker ∧
      ((env.costAnalysis computation).ok = true →
        ¬ device_description.clock_rate_ghz < 1 / 1000000000 →
        ∃ s, p.ToString env computation device_description =
          some (s ++ "****** 0 total cycles ******\n"))) ∧
    (0 < env.total_cycles_executed computation →
      reportTail p env device_description.clock_rate_ghz computation =
        ReportTail.categorizedTable
          ((sortedItems p computation).map
            (mkEntry device_description.clock_rate_ghz))
          (cycles_to_microseconds device_description.clock_rate_ghz
            ((env.total_cycles_executed computation : Int) : ℚ)) ∧
      ((sortedItems p computation).map
          (mkEntry device_description.clock_rate_ghz)).Perm
        ((filteredItems p computation).map
          (mkEntry device_description.clock_rate_ghz))) := by
  constructor
  · intro h
    have htail : reportTail p env device_description.clock_rate_ghz computation =
        ReportTail.zeroMarker := by
      unfold reportTail
      rw [if_pos h]
    refine ⟨htail, fun hok hclock => ?_⟩
    refine ⟨reportHeader env device_description.clock_rate_ghz computation
        (env.total_cycles_executed computation) ++
      renderRows env (reportRows p env computation device_description), ?_⟩
    unfold HloExecutionProfile.ToString
    rw [hok, if_pos rfl, if_neg hclock, htail]
    rfl
  · intro h
    have hne : ¬ env.total_cycles_executed computation ≤ 0 := not_le.mpr h
    constructor
    · unfold reportTail
      rw [if_neg hne]
    · exact (List.mergeSort_perm _ _).map _

/-- Claim C6 witness: both branches at concrete inputs — zero total cycles
yields the marker tail and marker-terminated text, positive total cycles
yields the categorized table. -/
theorem C6_witness :
    (reportTail (runAdds [(instA, 100)]) envZero deviceW.clock_rate_ghz compS =
      ReportTail.zeroMarker) ∧
    (∃ s, (runAdds [(instA, 100)]).ToString envZero compS deviceW =
      some (s ++ "****** 0 total cycles ******\n")) ∧
    (reportTail (runAdds [(instA, 100)]) envOk deviceW.clock_rate_ghz compS =
      ReportTail.categorizedTable
        ((sortedItems (runAdds [(instA, 100)]) compS).map
          (mkEntry deviceW.clock_rate_ghz))
        (cycles_to_microseconds deviceW.clock_rate_ghz
          ((envOk.total_cycles_executed compS : Int) : ℚ))) :=
  ⟨((C6_tail_zero_or_table (runAdds [(instA, 100)]) envZero compS deviceW).1
      (by decide)).1,
   ((C6_tail_zero_or_table (runAdds [(instA, 100)]) envZero compS deviceW).1
      (by decide)).2 rfl (by norm_num [deviceW]),
   ((C6_tail_zero_or_table (runAdds [(instA, 100)]) envOk compS deviceW).2
      (by decide)).1⟩

end XlaProfile
